import Mathlib

/-!
# Verification of the peerjs-go signaling socket (`src/socket.go`)

A shallow embedding of the signaling-socket core: the `Socket` state and its
public operations (`Start`, `Send`, `Close`), the receive-loop step, and the
`Message`/`Payload` wire model with its JSON encoding, translated from
`src/socket.go`.  External effects (the websocket dial, transport writes and
reads) are passed in as explicit oracle values, and the transport operations an
execution performs are returned as an explicit effect list.
-/

namespace Peer

/-! ## JSON values

Go's `encoding/json` is modelled at the level of JSON abstract-syntax values:
an object is an ordered list of key/value pairs, so "a field is absent from the
encoded form" is statable (no pair with that key), as is "present as null".
Numbers are modelled as integers; no claim depends on fractional values. -/

inductive Json where
  | null : Json
  | bool (b : Bool) : Json
  | num (n : Int) : Json
  | str (s : String) : Json
  | arr (xs : List Json) : Json
  | obj (fields : List (String × Json)) : Json
deriving Repr

/-! ## Configuration

The `Options` struct is declared outside `src/` (only its use in
`src/socket.go` is visible).  Modelled from the spec: "Configuration
(immutable, supplied externally): host, port, path, key, security flag
(selects protocol scheme), keepalive interval, diagnostic verbosity", with the
field names and types read off their uses in `src/socket.go`
(`s.opts.Secure`, `s.opts.Port : int` via `strconv.Itoa`, `s.opts.Host`,
`s.opts.Path`, `s.opts.Key`, `s.opts.PingInterval`, `opts.Debug`). -/
structure Options where
  Host : String
  Port : Int
  Path : String
  Key : String
  Secure : Bool
  PingInterval : Int
  Debug : Bool
deriving DecidableEq, Repr

/-! ## Websocket constants (gorilla/websocket, RFC 6455) -/

def websocketTextMessage : Int := 1
def websocketCloseMessage : Int := 8
def websocketPingMessage : Int := 9
def websocketCloseNormalClosure : Int := 1000
def websocketCloseGoingAway : Int := 1001
def websocketCloseNoStatusReceived : Int := 1005

/-- Modelled from the spec: the event-type tag constant
`SocketEventTypeMessage` is declared outside `src/`; the spec fixes its value:
the receive loop "publishes an event `{type: \x22message\x22, ...}`" and
subscribers use `Subscribe("message", handler)`. -/
def SocketEventTypeMessage : String := "message"

/-! ## Message / Payload model (`src/socket.go`, second unit) -/

/-- Session description, the external `webrtc.SessionDescription` referenced by
`Payload.SDP`: a record `{Type SDPType; SDP string}` with JSON keys
`"type"`/`"sdp"`, where `SDPType` marshals to one of the strings
`offer`/`pranswer`/`answer`/`rollback` (anything else is the unknown type). -/
inductive SDPType where
  | unknown | offer | pranswer | answer | rollback
deriving DecidableEq, Repr

def SDPType.toStr : SDPType → String
  | .unknown => "unknown"
  | .offer => "offer"
  | .pranswer => "pranswer"
  | .answer => "answer"
  | .rollback => "rollback"

def SDPType.ofStr (s : String) : SDPType :=
  if s = "offer" then .offer
  else if s = "pranswer" then .pranswer
  else if s = "answer" then .answer
  else if s = "rollback" then .rollback
  else .unknown

structure SessionDescription where
  «Type» : SDPType
  SDP : String
deriving DecidableEq, Repr

/-- `Payload` wraps a message payload (struct `Payload` in `src/socket.go`).
Go's `interface{}` metadata field is an optional arbitrary JSON value
(`none` = nil interface, the zero value); pointer field `SDP` is an option. -/
structure Payload where
  «Type» : String
  ConnectionID : String
  Metadata : Option Json
  Label : String
  Serialization : String
  Reliable : Bool
  Candidate : String
  SDP : Option SessionDescription
  Browser : String
deriving Repr

/-- The zero value of `Payload`. -/
def Payload.zero : Payload :=
  ⟨"", "", none, "", "", false, "", none, ""⟩

/-- `Message` the IMessage implementation (struct `Message` in
`src/socket.go`). -/
structure Message where
  «Type» : String
  Payload : Payload
  Src : String
  Dst : String
deriving Repr

/-- The zero value of `Message`. -/
def Message.zero : Message := ⟨"", Payload.zero, "", ""⟩

def Message.GetPayload (m : Message) : Peer.Payload := m.Payload
def Message.GetSrc (m : Message) : String := m.Src
def Message.GetDst (m : Message) : String := m.Dst
def Message.GetType (m : Message) : String := m.«Type»

/-! ## JSON encoding of `Message`/`Payload`

`encoding/json` marshalling of the two structs, driven by their field tags in
`src/socket.go`: fields are emitted in struct order under their tag names; a
field tagged `omitempty` is omitted when it holds its zero value (empty
string, `false`, nil interface, nil pointer).  `Type`, `ConnectionID`, `Src`
and the `Payload` field itself carry no `omitempty`. -/

/-- Association-list lookup used by `Json.lookup`: first binding of the key. -/
def lookupField : List (String × Json) → String → Option Json
  | [], _ => none
  | (k', v) :: rest, k => if k' = k then some v else lookupField rest k

/-- Value bound to key `k` when `j` is an object; `none` otherwise. -/
def Json.lookup (j : Json) (k : String) : Option Json :=
  match j with
  | .obj fields => lookupField fields k
  | _ => none

/-- An `omitempty` string field: omitted when empty. -/
def optStrField (key : String) (s : String) : List (String × Json) :=
  if s = "" then [] else [(key, .str s)]

/-- An `omitempty` bool field: omitted when `false`. -/
def optBoolField (key : String) (b : Bool) : List (String × Json) :=
  if b then [(key, .bool b)] else []

/-- An `omitempty` interface/pointer field: omitted when nil. -/
def optJsonField (key : String) : Option Json → List (String × Json)
  | none => []
  | some v => [(key, v)]

def marshalSessionDescription (sd : SessionDescription) : Json :=
  .obj [("type", .str sd.«Type».toStr), ("sdp", .str sd.SDP)]

/-- The key/value pairs `json.Marshal` emits for a `Payload`, in struct
order. -/
def payloadFields (p : Payload) : List (String × Json) :=
  ("type", Json.str p.«Type») :: ("connectionId", Json.str p.ConnectionID)
    :: (optJsonField "metadata" p.Metadata
    ++ (optStrField "label" p.Label
    ++ (optStrField "serialization" p.Serialization
    ++ (optBoolField "reliable" p.Reliable
    ++ (optStrField "candidate" p.Candidate
    ++ (optJsonField "sdp" (p.SDP.map marshalSessionDescription)
    ++ optStrField "browser" p.Browser))))))

def marshalPayload (p : Payload) : Json :=
  .obj (payloadFields p)

/-- The key/value pairs `json.Marshal` emits for a `Message`, in struct
order. -/
def messageFields (m : Message) : List (String × Json) :=
  ("type", Json.str m.«Type») :: ("payload", marshalPayload m.Payload)
    :: ("src", Json.str m.Src) :: optStrField "dst" m.Dst

def marshalMessage (m : Message) : Json :=
  .obj (messageFields m)

/-! ## JSON decoding of `Message`/`Payload`

`json.Unmarshal` semantics: only fields present in the object are populated,
the rest keep their zero value; unknown keys are ignored; a JSON `null` is a
no-op for value fields and sets interface/pointer fields to nil; a
wrongly-typed value leaves the field at its zero value and flags an
`UnmarshalTypeError` while decoding of the remaining fields continues.  Each
getter returns the decoded value together with a type-error flag. -/

/-- Decode a `string` struct field from key `k`. -/
def getStr (j : Json) (k : String) : String × Bool :=
  match j.lookup k with
  | none => ("", false)
  | some (.str s) => (s, false)
  | some .null => ("", false)
  | some _ => ("", true)

/-- Decode a `bool` struct field from key `k`. -/
def getBool (j : Json) (k : String) : Bool × Bool :=
  match j.lookup k with
  | none => (false, false)
  | some (.bool b) => (b, false)
  | some .null => (false, false)
  | some _ => (false, true)

/-- Decode an `interface\x7b\x7d` struct field from key `k`: any value is
accepted; an explicit `null` yields the nil interface. -/
def getAny (j : Json) (k : String) : Option Json :=
  match j.lookup k with
  | none => none
  | some .null => none
  | some v => some v

def unmarshalSessionDescription (j : Json) : SessionDescription × Bool :=
  match j with
  | .obj _ =>
    let (t, e1) := getStr j "type"
    let (sdp, e2) := getStr j "sdp"
    (⟨SDPType.ofStr t, sdp⟩, e1 || e2)
  | _ => (⟨.unknown, ""⟩, true)

/-- Decode the `*webrtc.SessionDescription` pointer field from key `k`. -/
def getSDP (j : Json) (k : String) : Option SessionDescription × Bool :=
  match j.lookup k with
  | none => (none, false)
  | some .null => (none, false)
  | some (.obj fields) =>
    let (sd, e) := unmarshalSessionDescription (.obj fields)
    (some sd, e)
  | some _ => (none, true)

def unmarshalPayload (j : Json) : Payload × Bool :=
  match j with
  | .obj _ =>
    let (ty, e1) := getStr j "type"
    let (cid, e2) := getStr j "connectionId"
    let md := getAny j "metadata"
    let (lbl, e3) := getStr j "label"
    let (ser, e4) := getStr j "serialization"
    let (rel, e5) := getBool j "reliable"
    let (cand, e6) := getStr j "candidate"
    let (sdp, e7) := getSDP j "sdp"
    let (br, e8) := getStr j "browser"
    (⟨ty, cid, md, lbl, ser, rel, cand, sdp, br⟩,
     e1 || e2 || e3 || e4 || e5 || e6 || e7 || e8)
  | .null => (Payload.zero, false)
  | _ => (Payload.zero, true)

/-- Decode the (non-pointer) `Payload` struct field from key `k`. -/
def getPayloadField (j : Json) (k : String) : Payload × Bool :=
  match j.lookup k with
  | none => (Payload.zero, false)
  | some v => unmarshalPayload v

def unmarshalMessage (j : Json) : Message × Bool :=
  match j with
  | .obj _ =>
    let (ty, e1) := getStr j "type"
    let (pl, e2) := getPayloadField j "payload"
    let (src, e3) := getStr j "src"
    let (dst, e4) := getStr j "dst"
    (⟨ty, pl, src, dst⟩, e1 || e2 || e3 || e4)
  | .null => (Message.zero, false)
  | _ => (Message.zero, true)

/-- Go `error` values, modelled abstractly: a gorilla `*websocket.CloseError`
carries its status code; `json.Unmarshal` failures are a syntax error (invalid
JSON) or an `UnmarshalTypeError` (mismatched value shape); anything else is an
opaque error text.  `none : Option Err` is Go's nil error. -/
inductive Err where
  | closeError (code : Int) (text : String) : Err
  | jsonSyntaxError : Err
  | jsonTypeError : Err
  | other (text : String) : Err
deriving DecidableEq, Repr

/-- `json.Unmarshal` of a raw frame into a fresh `Message`: the raw bytes are
abstracted as their JSON parse (`none` when the bytes are not valid JSON,
yielding a syntax error and the zero message). -/
def decodeRaw (raw : Option Json) : Message × Option Err :=
  match raw with
  | none => (Message.zero, some .jsonSyntaxError)
  | some j =>
    let (m, e) := unmarshalMessage j
    (m, if e then some .jsonTypeError else none)

/-! ## Socket state and operations (`src/socket.go`, first unit) -/

/-- Abstract transport handle (the `*websocket.Conn` returned by a dial). -/
structure Conn where
  handle : Nat
deriving DecidableEq, Repr

/-- The socket state: the mutable fields of struct `Socket` that the
operations read and write (`id` is declared but never assigned in
`src/socket.go`).  The embedded `Emitter`, the logger and the write mutex
carry no state the claims depend on; emission and logging are returned as
explicit outputs of each operation instead. -/
structure Socket where
  id : String
  opts : Options
  baseURL : String
  disconnected : Bool
  conn : Option Conn
deriving DecidableEq, Repr

/-- `NewSocket` creates a socket instance: zero-valued fields except `opts`
and `disconnected = true`. -/
def NewSocket (opts : Options) : Socket :=
  { id := "", opts := opts, baseURL := "", disconnected := true, conn := none }

/-- `Socket.buildBaseURL`. -/
def Socket.buildBaseURL (s : Socket) : String :=
  let proto := if s.opts.Secure then "wss" else "ws"
  let port := toString s.opts.Port
  proto ++ "://" ++ s.opts.Host ++ ":" ++ port ++ s.opts.Path
    ++ "/peerjs?key=" ++ s.opts.Key

/-- The transport operations an execution performs, in order. -/
inductive Effect where
  | dial (url : String)
  | writeControlClose
  | closeTransport
  | writeText (frame : List Nat)
deriving DecidableEq, Repr

/-- Result of one public operation: the state afterwards, the returned
`error` (`none` = nil), and the transport operations performed. -/
structure OpResult where
  state : Socket
  ret : Option Err
  effects : List Effect
deriving DecidableEq, Repr

/-- `Socket.Start`: no-op when not disconnected; otherwise caches the base
URL if unset, dials `baseURL + "&id=" + id + "&token=" + token`
(`dial` is the dialer's result), returns the dial error on failure, and on
success stores the handle.  Note the code never assigns
`s.disconnected = false`. -/
def Socket.Start (s : Socket) (id token : String) (dial : Except Err Conn) :
    OpResult :=
  if !s.disconnected then
    { state := s, ret := none, effects := [] }
  else
    let s' := if s.baseURL = "" then { s with baseURL := s.buildBaseURL } else s
    let url := s'.baseURL ++ "&id=" ++ id ++ "&token=" ++ token
    match dial with
    | .error e => { state := s', ret := some e, effects := [.dial url] }
    | .ok c => { state := { s' with conn := some c }, ret := none,
                 effects := [.dial url] }

/-- `Socket.Close`: no-op returning nil when flagged disconnected; otherwise
writes the normal-closure control frame (`writeCloseErr` is that write's
result, only logged), closes the transport (`closeErr` is that result and the
return value), then sets `disconnected` and drops the handle.  Returns `none`
when the Go code would dereference a nil `s.conn` (panic): not flagged
disconnected but no handle. -/
def Socket.Close (s : Socket) (writeCloseErr closeErr : Option Err) :
    Option OpResult :=
  if s.disconnected then
    some { state := s, ret := none, effects := [] }
  else
    match s.conn with
    | none => none
    | some _ =>
      some { state := { s with disconnected := true, conn := none },
             ret := closeErr,
             effects := [.writeControlClose, .closeTransport] }

/-- `Socket.Send`: no-op returning nil when `s.conn` is nil; otherwise writes
the frame as a text message under the write lock and returns the write's
result `writeErr`. -/
def Socket.Send (s : Socket) (msg : List Nat) (writeErr : Option Err) :
    OpResult :=
  match s.conn with
  | none => { state := s, ret := none, effects := [] }
  | some _ => { state := s, ret := writeErr, effects := [.writeText msg] }

/-! ## Caller-visible operation traces

A trace of public operations applied to a socket, each with the oracle values
for its external effects; used to reason about all states reachable through
the public API. -/

inductive Op where
  | start (id token : String) (dial : Except Err Conn)
  | close (writeCloseErr closeErr : Option Err)
  | send (msg : List Nat) (writeErr : Option Err)
deriving Repr

/-- Whether the operation is a `Start` whose dial succeeded. -/
def Op.isSuccessfulStart : Op → Bool
  | .start _ _ (.ok _) => true
  | _ => false

/-- Apply one operation to a state (`none` on a modelled panic). -/
def runOp (s : Socket) : Op → Option Socket
  | .start id token d => some (s.Start id token d).state
  | .close w c => (s.Close w c).map OpResult.state
  | .send m w => some (s.Send m w).state

/-- Run a trace of operations from a state. -/
def run (s : Socket) : List Op → Option Socket
  | [] => some s
  | op :: ops => (runOp s op).bind fun s' => run s' ops

/-! ## The receive loop -/

/-- `SocketEvent` carries an event from the socket; the `Message` field is a
pointer (`none` = nil). -/
structure SocketEvent where
  «Type» : String
  Message : Option Peer.Message
  Error : Option Err
deriving Repr

/-- Control decision of one receive-loop iteration: keep looping or return. -/
inductive LoopControl where
  | cont
  | exit
deriving DecidableEq, Repr

/-- Result of one `conn.ReadMessage()` call: a read error, or a frame with its
websocket message type and raw contents (abstracted as their JSON parse,
`none` when not valid JSON). -/
inductive ReadResult where
  | readErr (e : Err)
  | frame (msgType : Int) (raw : Option Json)
deriving Repr

/-- Observable outcome of one receive-loop iteration: the events emitted, the
decode errors logged via `log.Errorf`, whether the `WS read error` warning was
logged, and whether the loop continues. -/
structure LoopStepResult where
  events : List SocketEvent
  loggedReadError : Bool
  control : LoopControl
deriving Repr

/-- One iteration of the receive loop spawned by `Start` (the `for` body of
the second goroutine): exit when `s.conn` is nil; on a read error exit
silently for close errors with the normal-closure, going-away or no-status
codes and otherwise log a warning and continue; on a text frame decode it and
emit one message event carrying `&msg` and the decode error; ignore non-text
frames. -/
def receiveLoopStep : Option Conn → ReadResult → LoopStepResult
  | none, _ => { events := [], loggedReadError := false, control := .exit }
  | some _, .readErr (.closeError code _) =>
    if code = websocketCloseNormalClosure ∨ code = websocketCloseGoingAway
        ∨ code = websocketCloseNoStatusReceived then
      { events := [], loggedReadError := false, control := .exit }
    else
      { events := [], loggedReadError := true, control := .cont }
  | some _, .readErr _ =>
    { events := [], loggedReadError := true, control := .cont }
  | some _, .frame msgType raw =>
    if msgType = websocketTextMessage then
      let (msg, err) := decodeRaw raw
      { events := [⟨SocketEventTypeMessage, some msg, err⟩],
        loggedReadError := false, control := .cont }
    else
      { events := [], loggedReadError := false, control := .cont }

/-! ## Helper lemmas: JSON field lookup and the encode/decode round trip -/

theorem SDPType.ofStr_toStr (t : SDPType) : SDPType.ofStr t.toStr = t := by
  cases t <;> rfl

theorem unmarshalSD_marshalSD (sd : SessionDescription) :
    unmarshalSessionDescription (marshalSessionDescription sd) = (sd, false) := by
  obtain ⟨t, sdp⟩ := sd
  unfold marshalSessionDescription unmarshalSessionDescription getStr Json.lookup
  simp [lookupField, SDPType.ofStr_toStr]

theorem lookupField_optStr_ne (key s k : String) (l : List (String × Json))
    (h : key ≠ k) :
    lookupField (optStrField key s ++ l) k = lookupField l k := by
  unfold optStrField; split <;> simp [lookupField, h]

theorem lookupField_optBool_ne (key k : String) (b : Bool)
    (l : List (String × Json)) (h : key ≠ k) :
    lookupField (optBoolField key b ++ l) k = lookupField l k := by
  unfold optBoolField; split <;> simp [lookupField, h]

theorem lookupField_optJson_ne (key k : String) (o : Option Json)
    (l : List (String × Json)) (h : key ≠ k) :
    lookupField (optJsonField key o ++ l) k = lookupField l k := by
  cases o <;> simp [optJsonField, lookupField, h]

theorem lookupField_optStr_self (key s : String) (l : List (String × Json))
    (hl : lookupField l key = none) :
    lookupField (optStrField key s ++ l) key
      = if s = "" then none else some (.str s) := by
  unfold optStrField; split <;> simp [lookupField, hl]

theorem lookupField_optBool_self (key : String) (b : Bool)
    (l : List (String × Json)) (hl : lookupField l key = none) :
    lookupField (optBoolField key b ++ l) key
      = if b then some (.bool b) else none := by
  unfold optBoolField; split <;> simp [lookupField, hl]

theorem lookupField_optJson_self (key : String) (o : Option Json)
    (l : List (String × Json)) (hl : lookupField l key = none) :
    lookupField (optJsonField key o ++ l) key = o := by
  cases o <;> simp [optJsonField, lookupField, hl]


theorem lookupField_optStr_nil_ne (key s k : String) (h : key ≠ k) :
    lookupField (optStrField key s) k = none := by
  unfold optStrField; split <;> simp [lookupField, h]

theorem lookupField_optStr_nil_self (key s : String) :
    lookupField (optStrField key s) key
      = if s = "" then none else some (.str s) := by
  unfold optStrField; split <;> simp [lookupField]

theorem lookup_payloadFields_type (p : Payload) :
    lookupField (payloadFields p) "type" = some (.str p.«Type») := by
  simp [payloadFields, lookupField]

theorem lookup_payloadFields_connectionId (p : Payload) :
    lookupField (payloadFields p) "connectionId" = some (.str p.ConnectionID) := by
  simp [payloadFields, lookupField]

theorem lookup_payloadFields_metadata (p : Payload) :
    lookupField (payloadFields p) "metadata" = p.Metadata := by
  simp [payloadFields, lookupField, lookupField_optJson_self, lookupField_optStr_ne,
        lookupField_optBool_ne, lookupField_optJson_ne,
        lookupField_optStr_nil_ne, lookupField_optStr_nil_self]

theorem lookup_payloadFields_label (p : Payload) :
    lookupField (payloadFields p) "label"
      = if p.Label = "" then none else some (.str p.Label) := by
  simp [payloadFields, lookupField, lookupField_optStr_self, lookupField_optStr_ne,
        lookupField_optBool_ne, lookupField_optJson_ne,
        lookupField_optStr_nil_ne, lookupField_optStr_nil_self]

theorem lookup_payloadFields_serialization (p : Payload) :
    lookupField (payloadFields p) "serialization"
      = if p.Serialization = "" then none else some (.str p.Serialization) := by
  simp [payloadFields, lookupField, lookupField_optStr_self, lookupField_optStr_ne,
        lookupField_optBool_ne, lookupField_optJson_ne,
        lookupField_optStr_nil_ne, lookupField_optStr_nil_self]

theorem lookup_payloadFields_reliable (p : Payload) :
    lookupField (payloadFields p) "reliable"
      = if p.Reliable then some (.bool p.Reliable) else none := by
  simp [payloadFields, lookupField, lookupField_optBool_self, lookupField_optStr_ne,
        lookupField_optBool_ne, lookupField_optJson_ne,
        lookupField_optStr_nil_ne, lookupField_optStr_nil_self]

theorem lookup_payloadFields_candidate (p : Payload) :
    lookupField (payloadFields p) "candidate"
      = if p.Candidate = "" then none else some (.str p.Candidate) := by
  simp [payloadFields, lookupField, lookupField_optStr_self, lookupField_optStr_ne,
        lookupField_optBool_ne, lookupField_optJson_ne,
        lookupField_optStr_nil_ne, lookupField_optStr_nil_self]

theorem lookup_payloadFields_sdp (p : Payload) :
    lookupField (payloadFields p) "sdp"
      = p.SDP.map marshalSessionDescription := by
  simp [payloadFields, lookupField, lookupField_optJson_self, lookupField_optStr_ne,
        lookupField_optBool_ne, lookupField_optJson_ne,
        lookupField_optStr_nil_ne, lookupField_optStr_nil_self]

theorem lookup_payloadFields_browser (p : Payload) :
    lookupField (payloadFields p) "browser"
      = if p.Browser = "" then none else some (.str p.Browser) := by
  simp [payloadFields, lookupField, lookupField_optStr_self, lookupField_optStr_ne,
        lookupField_optBool_ne, lookupField_optJson_ne,
        lookupField_optStr_nil_ne, lookupField_optStr_nil_self]


theorem getStr_payload_type (p : Payload) :
    getStr (.obj (payloadFields p)) "type" = (p.«Type», false) := by
  simp [getStr, Json.lookup, lookup_payloadFields_type]

theorem getStr_payload_connectionId (p : Payload) :
    getStr (.obj (payloadFields p)) "connectionId" = (p.ConnectionID, false) := by
  simp [getStr, Json.lookup, lookup_payloadFields_connectionId]

theorem getAny_payload_metadata (p : Payload) (h : p.Metadata ≠ some .null) :
    getAny (.obj (payloadFields p)) "metadata" = p.Metadata := by
  simp only [getAny, Json.lookup, lookup_payloadFields_metadata]
  cases hm : p.Metadata with
  | none => simp
  | some v => cases v <;> simp_all

theorem getStr_payload_label (p : Payload) :
    getStr (.obj (payloadFields p)) "label" = (p.Label, false) := by
  by_cases h : p.Label = "" <;>
    simp [getStr, Json.lookup, lookup_payloadFields_label, h]

theorem getStr_payload_serialization (p : Payload) :
    getStr (.obj (payloadFields p)) "serialization" = (p.Serialization, false) := by
  by_cases h : p.Serialization = "" <;>
    simp [getStr, Json.lookup, lookup_payloadFields_serialization, h]

theorem getBool_payload_reliable (p : Payload) :
    getBool (.obj (payloadFields p)) "reliable" = (p.Reliable, false) := by
  cases hr : p.Reliable <;>
    simp [getBool, Json.lookup, lookup_payloadFields_reliable, hr]

theorem getStr_payload_candidate (p : Payload) :
    getStr (.obj (payloadFields p)) "candidate" = (p.Candidate, false) := by
  by_cases h : p.Candidate = "" <;>
    simp [getStr, Json.lookup, lookup_payloadFields_candidate, h]

theorem getSDP_payload (p : Payload) :
    getSDP (.obj (payloadFields p)) "sdp" = (p.SDP, false) := by
  simp only [getSDP, Json.lookup, lookup_payloadFields_sdp]
  cases p.SDP with
  | none => simp
  | some sd =>
    obtain ⟨t, sdpstr⟩ := sd
    simp [marshalSessionDescription, unmarshalSessionDescription, getStr,
          Json.lookup, lookupField, SDPType.ofStr_toStr]

theorem getStr_payload_browser (p : Payload) :
    getStr (.obj (payloadFields p)) "browser" = (p.Browser, false) := by
  by_cases h : p.Browser = "" <;>
    simp [getStr, Json.lookup, lookup_payloadFields_browser, h]

theorem unmarshalPayload_marshalPayload (p : Payload) (h : p.Metadata ≠ some .null) :
    unmarshalPayload (marshalPayload p) = (p, false) := by
  simp only [marshalPayload, unmarshalPayload, getStr_payload_type,
    getStr_payload_connectionId, getAny_payload_metadata p h, getStr_payload_label,
    getStr_payload_serialization, getBool_payload_reliable, getStr_payload_candidate,
    getSDP_payload, getStr_payload_browser]
  simp


theorem lookup_messageFields_type (m : Message) :
    lookupField (messageFields m) "type" = some (.str m.«Type») := by
  simp [messageFields, lookupField]

theorem lookup_messageFields_payload (m : Message) :
    lookupField (messageFields m) "payload" = some (marshalPayload m.Payload) := by
  simp [messageFields, lookupField]

theorem lookup_messageFields_src (m : Message) :
    lookupField (messageFields m) "src" = some (.str m.Src) := by
  simp [messageFields, lookupField]

theorem lookup_messageFields_dst (m : Message) :
    lookupField (messageFields m) "dst"
      = if m.Dst = "" then none else some (.str m.Dst) := by
  simp [messageFields, lookupField, lookupField_optStr_nil_self]

theorem getStr_message_type (m : Message) :
    getStr (.obj (messageFields m)) "type" = (m.«Type», false) := by
  simp [getStr, Json.lookup, lookup_messageFields_type]

theorem getStr_message_src (m : Message) :
    getStr (.obj (messageFields m)) "src" = (m.Src, false) := by
  simp [getStr, Json.lookup, lookup_messageFields_src]

theorem getStr_message_dst (m : Message) :
    getStr (.obj (messageFields m)) "dst" = (m.Dst, false) := by
  by_cases h : m.Dst = "" <;>
    simp [getStr, Json.lookup, lookup_messageFields_dst, h]

theorem getPayloadField_message (m : Message)
    (h : m.Payload.Metadata ≠ some .null) :
    getPayloadField (.obj (messageFields m)) "payload" = (m.Payload, false) := by
  simp [getPayloadField, Json.lookup, lookup_messageFields_payload,
        unmarshalPayload_marshalPayload m.Payload h]

theorem unmarshalMessage_marshalMessage (m : Message)
    (h : m.Payload.Metadata ≠ some .null) :
    unmarshalMessage (marshalMessage m) = (m, false) := by
  simp only [marshalMessage, unmarshalMessage, getStr_message_type,
    getPayloadField_message m h, getStr_message_src, getStr_message_dst]
  simp

theorem decodeRaw_marshalMessage (m : Message)
    (h : m.Payload.Metadata ≠ some .null) :
    decodeRaw (some (marshalMessage m)) = (m, none) := by
  simp [decodeRaw, unmarshalMessage_marshalMessage m h]

/-! ## State-machine helper lemmas -/

/-- Through the public API, the connection handle stays nil as long as no
`Start` with a successful dial has run. -/
theorem conn_none_of_no_successful_start (ops : List Op) (s0 : Socket)
    (h0 : s0.conn = none)
    (hops : ∀ op ∈ ops, op.isSuccessfulStart = false) :
    ∀ s, run s0 ops = some s → s.conn = none := by
  induction ops generalizing s0 with
  | nil =>
    intro s hs
    simp only [run, Option.some.injEq] at hs
    exact hs ▸ h0
  | cons op ops ih =>
    intro s hs
    simp only [run, Option.bind_eq_some] at hs
    obtain ⟨s1, h1, h2⟩ := hs
    have hop := hops op (List.mem_cons_self _ _)
    have hops2 : ∀ o ∈ ops, o.isSuccessfulStart = false :=
      fun o ho => hops o (List.mem_cons_of_mem _ ho)
    refine ih s1 ?_ hops2 s h2
    cases op with
    | start id token d =>
      cases d with
      | ok c => simp [Op.isSuccessfulStart] at hop
      | error e =>
        simp only [runOp, Option.some.injEq] at h1
        subst h1
        unfold Socket.Start
        split
        · exact h0
        · split <;> simp [h0]
    | close w c =>
      simp only [runOp] at h1
      unfold Socket.Close at h1
      cases hd : s0.disconnected with
      | true =>
        rw [hd] at h1
        simp at h1
        exact h1 ▸ h0
      | false =>
        rw [hd, h0] at h1
        simp at h1
    | send m w =>
      simp only [runOp, Option.some.injEq] at h1
      subst h1
      unfold Socket.Send
      rw [h0]
      exact h0

/-! ## Claims -/

/-- C7: for configuration `{host:"sig.example.com", port:443, path:"",
key:"k1", secure:true}`, `Start("abc","tok123")` dials exactly
`wss://sig.example.com:443/peerjs?key=k1&id=abc&token=tok123`; in general a
fresh socket dials
`{scheme}://{host}:{port}{path}/peerjs?key={key}&id={id}&token={token}` with
scheme `wss` when the security flag is set and `ws` otherwise. -/
theorem C7_connection_url (opts : Options) (id token : String)
    (d1 d2 : Except Err Conn) :
    ((NewSocket opts).Start id token d1).effects
      = [.dial ((if opts.Secure then "wss" else "ws") ++ "://" ++ opts.Host
          ++ ":" ++ toString opts.Port ++ opts.Path ++ "/peerjs?key="
          ++ opts.Key ++ "&id=" ++ id ++ "&token=" ++ token)]
    ∧ ((NewSocket ⟨"sig.example.com", 443, "", "k1", true, 5000, false⟩).Start
        "abc" "tok123" d2).effects
      = [.dial "wss://sig.example.com:443/peerjs?key=k1&id=abc&token=tok123"] := by
  constructor
  · unfold NewSocket Socket.Start Socket.buildBaseURL
    cases d1 <;> simp
  · unfold NewSocket Socket.Start Socket.buildBaseURL
    cases d2 <;> simp <;> decide

/-- C6: `Send` on a socket on which no successful `Start` has occurred
returns no error and performs no transport write. -/
theorem C6_send_before_start_is_noop (opts : Options) (ops : List Op)
    (s : Socket) (msg : List Nat) (writeErr : Option Err)
    (hrun : run (NewSocket opts) ops = some s)
    (hops : ∀ op ∈ ops, op.isSuccessfulStart = false) :
    s.Send msg writeErr = { state := s, ret := none, effects := [] } := by
  have hc : s.conn = none :=
    conn_none_of_no_successful_start ops (NewSocket opts) rfl hops s hrun
  unfold Socket.Send
  rw [hc]

/-- Witness for C6 at a trace containing a failed dial, a `Close` and a
`Send`. -/
theorem C6_send_before_start_is_noop_witness :
    (run (NewSocket ⟨"h", 80, "", "k", false, 1, false⟩)
        [.start "a" "t" (.error (.other "refused")), .close none none]
      = some { id := "", opts := ⟨"h", 80, "", "k", false, 1, false⟩,
               baseURL := "ws://h:80/peerjs?key=k", disconnected := true,
               conn := none })
    ∧ ({ id := "", opts := ⟨"h", 80, "", "k", false, 1, false⟩,
         baseURL := "ws://h:80/peerjs?key=k", disconnected := true,
         conn := none } : Socket).Send [1, 2] (some (.other "boom"))
      = { state := { id := "", opts := ⟨"h", 80, "", "k", false, 1, false⟩,
                     baseURL := "ws://h:80/peerjs?key=k", disconnected := true,
                     conn := none },
          ret := none, effects := [] } := by
  refine ⟨by decide, ?_⟩
  exact C6_send_before_start_is_noop ⟨"h", 80, "", "k", false, 1, false⟩
    [.start "a" "t" (.error (.other "refused")), .close none none]
    _ [1, 2] (some (.other "boom")) (by decide) (by decide)

/-- C3: `Close` is idempotent: after any completed `Close`, a further `Close`
performs no transport operation, leaves the state unchanged and returns no
error; in particular on an already-disconnected socket it is a no-op. -/
theorem C3_close_idempotent (s : Socket) (w1 c1 w2 c2 : Option Err)
    (res : OpResult) (h : s.Close w1 c1 = some res) :
    res.state.Close w2 c2
      = some { state := res.state, ret := none, effects := [] } := by
  unfold Socket.Close at h ⊢
  split at h
  · simp only [Option.some.injEq] at h
    subst h
    simp_all
  · rename_i hd
    rcases hs : s.conn with _ | c
    · rw [hs] at h
      simp at h
    · rw [hs] at h
      simp only [Option.some.injEq] at h
      subst h
      simp

/-- Witness for C3 on a connected socket whose first `Close` tears down the
transport. -/
theorem C3_close_idempotent_witness :
    (({ id := "", opts := ⟨"h", 80, "", "k", false, 1, false⟩, baseURL := "",
        disconnected := false, conn := some ⟨7⟩ } : Socket).Close none none
      = some { state := { id := "", opts := ⟨"h", 80, "", "k", false, 1, false⟩,
                          baseURL := "", disconnected := true, conn := none },
               ret := none,
               effects := [.writeControlClose, .closeTransport] })
    ∧ ({ id := "", opts := ⟨"h", 80, "", "k", false, 1, false⟩, baseURL := "",
         disconnected := true, conn := none } : Socket).Close none none
      = some { state := { id := "", opts := ⟨"h", 80, "", "k", false, 1, false⟩,
                          baseURL := "", disconnected := true, conn := none },
               ret := none, effects := [] } := by
  refine ⟨by decide, ?_⟩
  exact C3_close_idempotent
    { id := "", opts := ⟨"h", 80, "", "k", false, 1, false⟩, baseURL := "",
      disconnected := false, conn := some ⟨7⟩ } none none none none
    { state := { id := "", opts := ⟨"h", 80, "", "k", false, 1, false⟩,
                 baseURL := "", disconnected := true, conn := none },
      ret := none, effects := [.writeControlClose, .closeTransport] }
    (by decide)

/-- C5: on a connected socket (`disconnected = false`, handle present),
`Close` writes the graceful-close control frame (whose write error never
reaches the return value), closes the transport, returns the transport-close
error, and leaves the socket disconnected with the handle cleared. -/
theorem C5_close_on_connected (s : Socket) (c : Conn)
    (writeCloseErr closeErr : Option Err)
    (hd : s.disconnected = false) (hc : s.conn = some c) :
    s.Close writeCloseErr closeErr
      = some { state := { s with disconnected := true, conn := none },
               ret := closeErr,
               effects := [.writeControlClose, .closeTransport] } := by
  unfold Socket.Close
  rw [hd, hc]
  simp

/-- Witness for C5: the close-frame write fails, the transport close
succeeds, and the returned error is nil. -/
theorem C5_close_on_connected_witness :
    ({ id := "", opts := ⟨"h", 80, "", "k", false, 1, false⟩, baseURL := "",
       disconnected := false, conn := some ⟨3⟩ } : Socket).Close
        (some (.other "close frame write failed")) none
      = some { state := { id := "", opts := ⟨"h", 80, "", "k", false, 1, false⟩,
                          baseURL := "", disconnected := true, conn := none },
               ret := none,
               effects := [.writeControlClose, .closeTransport] } :=
  C5_close_on_connected _ ⟨3⟩ (some (.other "close frame write failed")) none
    rfl rfl

/-- C1: the spec says a successful `Start` on a disconnected socket records
the handle, clears the disconnected flag, and makes a further `Start` a no-op
that does not dial again.  The code records the handle but never assigns
`s.disconnected = false`, so the flag stays set and a second `Start` dials
again: evaluated here on a fresh socket with a succeeding dialer. -/
theorem C1_start_never_clears_disconnected :
    (((NewSocket ⟨"sig.example.com", 443, "", "k1", true, 5000, false⟩).Start
        "abc" "tok123" (.ok ⟨1⟩)).ret = none
      ∧ ((NewSocket ⟨"sig.example.com", 443, "", "k1", true, 5000, false⟩).Start
        "abc" "tok123" (.ok ⟨1⟩)).state.conn = some ⟨1⟩)
    ∧ ((NewSocket ⟨"sig.example.com", 443, "", "k1", true, 5000, false⟩).Start
        "abc" "tok123" (.ok ⟨1⟩)).state.disconnected = true
    ∧ (((NewSocket ⟨"sig.example.com", 443, "", "k1", true, 5000, false⟩).Start
        "abc" "tok123" (.ok ⟨1⟩)).state.Start "abc" "tok123" (.ok ⟨2⟩)).effects
      = [.dial "wss://sig.example.com:443/peerjs?key=k1&id=abc&token=tok123"] := by
  refine ⟨⟨?_, ?_⟩, ?_, ?_⟩ <;> decide

/-- C2: the spec invariant "transport handle non-nil ⇔ disconnected flag
false" holds initially but is broken by `Start`: after a successful dial the
handle is recorded while the flag stays `true` (the code never assigns
`s.disconnected = false`), so `Start` does not preserve the equivalence. -/
theorem C2_start_breaks_handle_flag_consistency :
    ((NewSocket ⟨"sig.example.com", 443, "", "k1", true, 5000, false⟩).conn
        ≠ none
      ↔ (NewSocket ⟨"sig.example.com", 443, "", "k1", true, 5000,
          false⟩).disconnected = false)
    ∧ ¬((((NewSocket ⟨"sig.example.com", 443, "", "k1", true, 5000,
          false⟩).Start "abc" "tok123" (.ok ⟨1⟩)).state.conn ≠ none)
        ↔ (((NewSocket ⟨"sig.example.com", 443, "", "k1", true, 5000,
          false⟩).Start "abc" "tok123" (.ok ⟨1⟩)).state.disconnected
          = false)) := by
  constructor
  · constructor
    · intro h
      exact absurd rfl h
    · intro h
      exact absurd h (by decide)
  · intro h
    have h1 := h.mp (by decide)
    exact absurd h1 (by decide)

/-- C4 counterexample: the claim says every field left at its zero value is
absent from the encoded form, but the zero `Message` is encoded with `type`,
`src`, `payload`, `payload.type` and `payload.connectionId` present as
empty-string/zero values (these tags carry no `omitempty`). -/
theorem C4_zero_fields_are_emitted :
    ¬((marshalMessage Message.zero).lookup "src" = none)
    ∧ (marshalMessage Message.zero).lookup "src" = some (.str "")
    ∧ (marshalMessage Message.zero).lookup "type" = some (.str "")
    ∧ (marshalPayload Payload.zero).lookup "connectionId" = some (.str "") := by
  refine ⟨?_, rfl, rfl, rfl⟩
  intro h
  simp [marshalMessage, messageFields, Json.lookup, lookupField, optStrField,
        Message.zero] at h

/-- C4 (amended): encoding then decoding restores `Type`, `Src`, `Dst` and
every populated `Payload` field exactly (a metadata holding an explicit JSON
null decodes to nil metadata, hence the hypothesis); the `omitempty`-tagged
fields (`Dst`, `Metadata`, `Label`, `Serialization`, `Reliable`, `Candidate`,
`SDP`, `Browser`) are absent from the encoded form when zero-valued, while
`Type`, `Src`, `Payload`, `Payload.Type` and `Payload.ConnectionID` are
always present, as empty values when unset. -/
theorem C4_roundtrip_and_omission (m : Message) (p : Payload)
    (hmd : m.Payload.Metadata ≠ some .null) :
    unmarshalMessage (marshalMessage m) = (m, false)
    ∧ ((marshalMessage m).lookup "type" = some (.str m.«Type»)
      ∧ (marshalMessage m).lookup "src" = some (.str m.Src)
      ∧ (marshalMessage m).lookup "payload" = some (marshalPayload m.Payload)
      ∧ (m.Dst = "" → (marshalMessage m).lookup "dst" = none))
    ∧ ((marshalPayload p).lookup "type" = some (.str p.«Type»)
      ∧ (marshalPayload p).lookup "connectionId" = some (.str p.ConnectionID)
      ∧ (p.Metadata = none → (marshalPayload p).lookup "metadata" = none)
      ∧ (p.Label = "" → (marshalPayload p).lookup "label" = none)
      ∧ (p.Serialization = "" → (marshalPayload p).lookup "serialization" = none)
      ∧ (p.Reliable = false → (marshalPayload p).lookup "reliable" = none)
      ∧ (p.Candidate = "" → (marshalPayload p).lookup "candidate" = none)
      ∧ (p.SDP = none → (marshalPayload p).lookup "sdp" = none)
      ∧ (p.Browser = "" → (marshalPayload p).lookup "browser" = none)) := by
  refine ⟨unmarshalMessage_marshalMessage m hmd, ⟨?_, ?_, ?_, ?_⟩,
    ?_, ?_, ?_, ?_, ?_, ?_, ?_, ?_, ?_⟩
  · simp [marshalMessage, Json.lookup, lookup_messageFields_type]
  · simp [marshalMessage, Json.lookup, lookup_messageFields_src]
  · simp [marshalMessage, Json.lookup, lookup_messageFields_payload]
  · intro h
    simp [marshalMessage, Json.lookup, lookup_messageFields_dst, h]
  · simp [marshalPayload, Json.lookup, lookup_payloadFields_type]
  · simp [marshalPayload, Json.lookup, lookup_payloadFields_connectionId]
  · intro h
    simp [marshalPayload, Json.lookup, lookup_payloadFields_metadata, h]
  · intro h
    simp [marshalPayload, Json.lookup, lookup_payloadFields_label, h]
  · intro h
    simp [marshalPayload, Json.lookup, lookup_payloadFields_serialization, h]
  · intro h
    simp [marshalPayload, Json.lookup, lookup_payloadFields_reliable, h]
  · intro h
    simp [marshalPayload, Json.lookup, lookup_payloadFields_candidate, h]
  · intro h
    simp [marshalPayload, Json.lookup, lookup_payloadFields_sdp, h]
  · intro h
    simp [marshalPayload, Json.lookup, lookup_payloadFields_browser, h]

/-- Witness for the amended C4 on a message with every payload field
populated. -/
theorem C4_roundtrip_and_omission_witness :
    unmarshalMessage (marshalMessage
      { «Type» := "OFFER",
        Payload := { «Type» := "pt", ConnectionID := "c1",
                     Metadata := some (.num 5), Label := "lbl",
                     Serialization := "binary", Reliable := true,
                     Candidate := "cand", SDP := some ⟨.offer, "v=0"⟩,
                     Browser := "ff" },
        Src := "a", Dst := "b" })
      = ({ «Type» := "OFFER",
           Payload := { «Type» := "pt", ConnectionID := "c1",
                        Metadata := some (.num 5), Label := "lbl",
                        Serialization := "binary", Reliable := true,
                        Candidate := "cand", SDP := some ⟨.offer, "v=0"⟩,
                        Browser := "ff" },
           Src := "a", Dst := "b" }, false) :=
  (C4_roundtrip_and_omission
    { «Type» := "OFFER",
      Payload := { «Type» := "pt", ConnectionID := "c1",
                   Metadata := some (.num 5), Label := "lbl",
                   Serialization := "binary", Reliable := true,
                   Candidate := "cand", SDP := some ⟨.offer, "v=0"⟩,
                   Browser := "ff" },
      Src := "a", Dst := "b" } Payload.zero (by simp)).1

/-- C8: a text frame that fails to decode yields exactly one published event,
tagged `SocketEventTypeMessage` and carrying a non-nil error, and the loop
continues. -/
theorem C8_decode_failure_publishes_one_event (c : Conn) (raw : Option Json)
    (h : (decodeRaw raw).2 ≠ none) :
    (receiveLoopStep (some c) (.frame websocketTextMessage raw)).events.length
      = 1
    ∧ (∀ ev ∈ (receiveLoopStep (some c)
        (.frame websocketTextMessage raw)).events,
        ev.«Type» = SocketEventTypeMessage ∧ ev.Error ≠ none)
    ∧ (receiveLoopStep (some c) (.frame websocketTextMessage raw)).control
      = .cont := by
  rcases hdr : decodeRaw raw with ⟨msg, err⟩
  rw [hdr] at h
  have hstep : receiveLoopStep (some c) (.frame websocketTextMessage raw)
      = { events := [⟨SocketEventTypeMessage, some msg, err⟩],
          loggedReadError := false, control := .cont } := by
    simp [receiveLoopStep, hdr]
  rw [hstep]
  refine ⟨rfl, ?_, rfl⟩
  intro ev hev
  simp only [List.mem_singleton] at hev
  subst hev
  exact ⟨rfl, h⟩

/-- Witness for C8 on a frame whose bytes are not valid JSON. -/
theorem C8_decode_failure_publishes_one_event_witness :
    (receiveLoopStep (some ⟨0⟩) (.frame websocketTextMessage none)).events.length
      = 1
    ∧ (∀ ev ∈ (receiveLoopStep (some ⟨0⟩)
        (.frame websocketTextMessage none)).events,
        ev.«Type» = SocketEventTypeMessage ∧ ev.Error ≠ none)
    ∧ (receiveLoopStep (some ⟨0⟩) (.frame websocketTextMessage none)).control
      = .cont :=
  C8_decode_failure_publishes_one_event ⟨0⟩ none (by simp [decodeRaw])

/-- C9: a read error that is a close error with code normal-closure,
going-away or no-status makes the receive loop exit silently (no event, no
warning); any other read error is logged as a warning and the loop retries
the read, publishing nothing and propagating nothing. -/
theorem C9_read_error_handling (c : Conn) (e : Err) :
    ((∃ code text, e = .closeError code text
        ∧ (code = websocketCloseNormalClosure ∨ code = websocketCloseGoingAway
          ∨ code = websocketCloseNoStatusReceived)) →
      receiveLoopStep (some c) (.readErr e)
        = { events := [], loggedReadError := false, control := .exit })
    ∧ (¬(∃ code text, e = .closeError code text
        ∧ (code = websocketCloseNormalClosure ∨ code = websocketCloseGoingAway
          ∨ code = websocketCloseNoStatusReceived)) →
      receiveLoopStep (some c) (.readErr e)
        = { events := [], loggedReadError := true, control := .cont }) := by
  constructor
  · rintro ⟨code, text, rfl, hcode⟩
    simp only [receiveLoopStep]
    rw [if_pos hcode]
  · intro hne
    cases e with
    | closeError code text =>
      simp only [receiveLoopStep]
      rw [if_neg]
      intro hcode
      exact hne ⟨code, text, rfl, hcode⟩
    | jsonSyntaxError => rfl
    | jsonTypeError => rfl
    | other t => rfl

/-- Witness for C9: a normal-closure close error exits silently; a generic
read error logs a warning and continues. -/
theorem C9_read_error_handling_witness :
    receiveLoopStep (some ⟨0⟩) (.readErr (.closeError 1000 "bye"))
      = { events := [], loggedReadError := false, control := .exit }
    ∧ receiveLoopStep (some ⟨0⟩) (.readErr (.other "connection reset"))
      = { events := [], loggedReadError := true, control := .cont } :=
  ⟨(C9_read_error_handling ⟨0⟩ (.closeError 1000 "bye")).1
      ⟨1000, "bye", rfl, Or.inl rfl⟩,
   (C9_read_error_handling ⟨0⟩ (.other "connection reset")).2
      (by rintro ⟨code, text, h, hc⟩; cases h)⟩

/-- C10: every event the receive loop publishes carries a non-nil `Message`
pointer, whatever the read result and however decoding went. -/
theorem C10_published_message_never_nil (conn : Option Conn) (r : ReadResult) :
    ∀ ev ∈ (receiveLoopStep conn r).events, ev.Message ≠ none := by
  intro ev hev
  cases conn with
  | none => simp [receiveLoopStep] at hev
  | some c =>
    cases r with
    | readErr e =>
      cases e with
      | closeError code text =>
        simp only [receiveLoopStep] at hev
        by_cases hcode : code = websocketCloseNormalClosure
            ∨ code = websocketCloseGoingAway
            ∨ code = websocketCloseNoStatusReceived
        · rw [if_pos hcode] at hev
          simp at hev
        · rw [if_neg hcode] at hev
          simp at hev
      | jsonSyntaxError => simp [receiveLoopStep] at hev
      | jsonTypeError => simp [receiveLoopStep] at hev
      | other t => simp [receiveLoopStep] at hev
    | frame msgType raw =>
      simp only [receiveLoopStep] at hev
      by_cases ht : msgType = websocketTextMessage
      · rw [if_pos ht] at hev
        rcases hdr : decodeRaw raw with ⟨msg, err⟩
        rw [hdr] at hev
        simp only [List.mem_singleton] at hev
        subst hev
        simp
      · rw [if_neg ht] at hev
        simp at hev

/-- Witness for C10 at the event published for an undecodable text frame. -/
theorem C10_published_message_never_nil_witness :
    ({ «Type» := SocketEventTypeMessage, Message := some Message.zero,
       Error := some .jsonSyntaxError } : SocketEvent).Message ≠ none :=
  C10_published_message_never_nil (some ⟨0⟩)
    (.frame websocketTextMessage none)
    { «Type» := SocketEventTypeMessage, Message := some Message.zero,
      Error := some .jsonSyntaxError }
    (by simp [receiveLoopStep, decodeRaw, List.mem_singleton])

end Peer
